import Mathlib

/-!
Verification of the AccuWeather → BigPanda integration service.

This file gives a shallow embedding, in Lean, of the core logic of the
service: the observation formatter / severity classifier
(`src/api-handlers/accuweather.ts`, `formatConditionsAsBigPandaAlert`),
the queue gateway (`src/api-handlers/sqs-handler.ts`, `sendMessage`),
the retry policy (`src/error/error-handlers.ts`, `handleSQSError`),
the alert sink (`src/api-handlers/bigpanda.ts`, `sendAlert`) and the
inbound `/alert` HTTP handler (`src/app.ts`), together with theorems
settling the specified behaviour of each.

JavaScript-value conventions used throughout the embedding:
`Option α` models a possibly-`undefined` value (`none` = `undefined`);
a JavaScript `number` is modelled by `JSNum` (an integer or `NaN`);
a thrown error is modelled by `Except`.
-/

namespace WeatherBP

/-- JavaScript `s.trim()`: strip whitespace from both ends of a string.
(Defined structurally over the character list so that it evaluates inside
the kernel.) -/
def jsTrim (s : String) : String :=
  ⟨((s.data.dropWhile Char.isWhitespace).reverse.dropWhile Char.isWhitespace).reverse⟩

/-- A JavaScript string argument is "falsy or blank" when it is `undefined`,
the empty string, or trims to the empty string.  This is the test
`!s || s.trim() === ""` used by every validation guard in the source. -/
def strFalsyOrBlank : Option String → Bool
  | none => true
  | some s => s == "" || jsTrim s == ""

/-- `listStartsWith pat l` is true when `pat` is an initial segment of `l`. -/
def listStartsWith : List Char → List Char → Bool
  | [], _ => true
  | _ :: _, [] => false
  | a :: as, b :: bs => a == b && listStartsWith as bs

/-- `listHasSub pat l` is true when `pat` occurs contiguously inside `l`. -/
def listHasSub (pat : List Char) : List Char → Bool
  | [] => pat.isEmpty
  | c :: rest => listStartsWith pat (c :: rest) || listHasSub pat rest

/-- JavaScript `s.includes(pat)`: substring containment on strings. -/
def jsIncludes (s pat : String) : Bool :=
  listHasSub pat.data s.data

/-- JavaScript `s.toLowerCase()` (ASCII fragment, which covers every string
compared by the source: condition texts and the constant `"sunny"`). -/
def jsToLower (s : String) : String :=
  ⟨s.data.map Char.toLower⟩

/-- A JavaScript `number` as it occurs in this system: either `NaN`
(produced by `parseInt` on a non-numeric string) or an integer. -/
inductive JSNum where
  | nan : JSNum
  | int (n : Int) : JSNum
deriving DecidableEq, Repr

/-- JavaScript truthiness test `!x` (negated) for a number: `NaN` and `0`
are falsy, every other number is truthy. -/
def JSNum.falsy : JSNum → Bool
  | .nan => true
  | .int n => n == 0

/-- JavaScript comparison `x <= 0`: false for `NaN` (comparisons with `NaN`
are always false), the integer comparison otherwise. -/
def JSNum.leZero : JSNum → Bool
  | .nan => false
  | .int n => n ≤ 0

/-- JavaScript `x - 1` on a number: `NaN` propagates, integers decrement. -/
def JSNum.dec : JSNum → JSNum
  | .nan => .nan
  | .int n => .int (n - 1)

/-- JavaScript `Math.floor(q * 101)` for a rational `q` (the
incident-identifier suffix computation `Math.floor(Math.random() * 101)`),
computed as `(q.num * 101).fdiv q.den`: the denominator of a rational is
positive, so flooring division of the scaled numerator is exactly the
floor of `q * 101`. -/
def floorMul101 (q : ℚ) : Int :=
  (q.num * 101).fdiv q.den

/-- Decimal value of a run of digit characters, most significant first. -/
def digitsVal (l : List Char) : Nat :=
  l.foldl (fun acc c => acc * 10 + (c.toNat - 48)) 0

/-- JavaScript `parseInt(s)` (base-10 fragment: leading/trailing whitespace,
an optional sign, then the longest run of leading decimal digits; `NaN`
when no digit is found.  Radix-prefixed forms do not occur in this system).
`parseInt(undefined)` stringifies the argument and yields `NaN`. -/
def jsParseInt : Option String → JSNum
  | none => .nan
  | some s =>
    let t := (jsTrim s).data
    let signed : Int × List Char :=
      match t with
      | '-' :: r => (-1, r)
      | '+' :: r => (1, r)
      | r => (1, r)
    let ds := signed.2.takeWhile Char.isDigit
    if ds.isEmpty then .nan
    else .int (signed.1 * (digitsVal ds : Int))

/-! ## Queue gateway: `SQSHandler.sendMessage`
(`src/api-handlers/sqs-handler.ts`, current revision, lines 281–304). -/

/-- Errors thrown by the SQS handler (`SQSHandlerError`). -/
inductive SQSErr where
  | sqsHandlerError (msg : String) : SQSErr
deriving DecidableEq, Repr

/-- The `SendMessageRequest` parameters built by `sendMessage`: the constant
delay, the `Retries` message attribute (numeric; `none` when the attribute
map is left empty) and the message body. -/
structure SendParams where
  DelaySeconds : Nat
  RetriesAttribute : Option JSNum
  MessageBody : String
deriving DecidableEq, Repr

/-- `SQSHandler.sendMessage(retriesRemaining, message)`: rejects a falsy or
blank body; sets the `Retries` attribute exactly when `retriesRemaining` is
a number (`typeof retriesRemaining === "number"`, true for every number
including `NaN`, false for `undefined`). -/
def sendMessage (retriesRemaining : Option JSNum) (message : Option String) :
    Except SQSErr SendParams :=
  match message with
  | none => .error (.sqsHandlerError "Please provide a valid message to send to SQS.")
  | some body =>
    if body == "" || jsTrim body == "" then
      .error (.sqsHandlerError "Please provide a valid message to send to SQS.")
    else
      .ok { DelaySeconds := 10, RetriesAttribute := retriesRemaining, MessageBody := body }

/-! ## Retry policy: `handleSQSError`
(`src/error/error-handlers.ts`, lines 68–92). -/

/-- Which queue the retry policy routed the failed message to: the primary
queue handler (`AWS_SQS_URL`) or the dead-letter handler (`AWS_DLQ_URL`). -/
inductive Destination where
  | primary : Destination
  | deadLetter : Destination
deriving DecidableEq, Repr

/-- The parts of an incoming SQS `Message` read by the retry policy.
`MessageAttributes` is `none` when the attribute map itself is absent,
`some none` when it has no `Retries` key, and `some (some sv)` when the
`Retries` attribute is present with `StringValue` `sv` (itself possibly
`undefined`). -/
structure SQSMessage where
  Body : Option String
  MessageAttributes : Option (Option (Option String))
deriving DecidableEq, Repr

deriving instance DecidableEq for Except

/-- Observable outcome of one run of `handleSQSError`: whether the
"No Retries Provided" message was logged, the final value of the
`remainingRetries` variable, the destination queue, and the result of the
`sendMessage` call made on that destination. -/
structure RetryTrace where
  loggedNoRetries : Bool
  remainingRetries : JSNum
  dest : Destination
  send : Except SQSErr SendParams
deriving DecidableEq, Repr

/-- `handleSQSError(errorSource, message, error)`: reads
`parseInt(message.MessageAttributes["Retries"]["StringValue"])`, where an
absent attribute map or absent `Retries` key raises a `TypeError` that is
caught (logging and setting the budget to `0`), while a present attribute
whose value fails to parse yields `NaN` uncaught; then routes to the
dead-letter handler when `!remainingRetries || remainingRetries <= 0` and
otherwise decrements and routes to the primary handler, finally calling
`sendMessage(remainingRetries, message.Body)` on the chosen handler. -/
def handleSQSError (message : SQSMessage) : RetryTrace :=
  let parsed : JSNum × Bool :=
    match message.MessageAttributes with
    | none => (.int 0, true)
    | some none => (.int 0, true)
    | some (some sv) => (jsParseInt sv, false)
  if parsed.1.falsy || parsed.1.leZero then
    { loggedNoRetries := parsed.2, remainingRetries := parsed.1,
      dest := .deadLetter, send := sendMessage (some parsed.1) message.Body }
  else
    { loggedNoRetries := parsed.2, remainingRetries := parsed.1.dec,
      dest := .primary, send := sendMessage (some parsed.1.dec) message.Body }

/-- The producer-path enqueue of a freshly formatted alert
(`src/app.ts`, line 363): `sqsHandler.sendMessage(5, JSON.stringify(alertJSON))`. -/
def producerEnqueue (alertJSON : String) : Except SQSErr SendParams :=
  sendMessage (some (.int 5)) (some alertJSON)

/-! ## Observation formatter: `AccuWeatherAPI.formatConditionsAsBigPandaAlert`
(`src/api-handlers/accuweather.ts`, lines 52–101). -/

/-- One temperature reading of the conditions response
(`{"Value": …, "Unit": …}`); only `Value` is read by the source.
Temperature values are modelled as rationals (JavaScript numerics such as
`16.7` are exact decimals here). -/
structure TempScale where
  Value : ℚ
deriving DecidableEq, Repr

/-- The `Temperature` member of the conditions response, with its
`Imperial` and `Metric` readings, either possibly absent. -/
structure TemperatureObj where
  Imperial : Option TempScale
  Metric : Option TempScale
deriving DecidableEq, Repr

/-- The conditions JSON object handed to the formatter.  Each recognised
member is optional (`none` = key absent); `PrecipitationType` distinguishes
a present-but-`null` value (`some none`) from an absent key (`none`);
`extraFields` counts the keys of the object that the formatter never
reads, so that `Object.keys(conditionsJSON).length` is representable. -/
structure Conditions where
  Temperature : Option TemperatureObj
  HasPrecipitation : Option Bool
  WeatherText : Option String
  PrecipitationType : Option (Option String)
  Link : Option String
  extraFields : Nat
deriving DecidableEq, Repr

/-- `Object.keys(conditionsJSON).length` for a `Conditions` object. -/
def keyCount (c : Conditions) : Nat :=
  (if c.Temperature.isSome then 1 else 0) +
  (if c.HasPrecipitation.isSome then 1 else 0) +
  (if c.WeatherText.isSome then 1 else 0) +
  (if c.PrecipitationType.isSome then 1 else 0) +
  (if c.Link.isSome then 1 else 0) +
  c.extraFields

/-- JavaScript truthiness of a possibly-`undefined` boolean
(`undefined` is falsy). -/
def truthy : Option Bool → Bool
  | none => false
  | some b => b

/-- Errors that abort the formatter: the `AccuWeatherError` validation
throws, or a JavaScript `TypeError` from reading a property of
`undefined`. -/
inductive JSErr where
  | accuErr (msg : String) : JSErr
  | typeError : JSErr
deriving DecidableEq, Repr

/-- The BigPanda alert object built by the formatter.  Fields copied from
possibly-absent members of the conditions object stay optional. -/
structure AlertJSON where
  host : String
  status : String
  check : String
  incident_identifier : String
  condition : Option String
  precipitation : Option Bool
  precipitation_type : Option (Option String)
  link : Option String
  temperature_celsius : ℚ
  temperature_farenheit : ℚ
deriving DecidableEq, Repr

/-- The `status` computation of the formatter (source lines 78–83):
`"critical"` when the precipitation flag is truthy or the Fahrenheit
reading is at least 102 or below 32; otherwise `"ok"` when
`weatherDescription.toLowerCase().includes("sunny")`, calling
`.toLowerCase()` on an absent `WeatherText` and hence throwing a
`TypeError`; `"warning"` otherwise. -/
def jsStatus (hasPrecipitation : Bool) (farenheit : ℚ) (weatherText : Option String) :
    Except JSErr String :=
  if hasPrecipitation || farenheit ≥ 102 || farenheit < 32 then .ok "critical"
  else
    match weatherText with
    | none => .error .typeError
    | some w => .ok (if jsIncludes (jsToLower w) "sunny" then "ok" else "warning")

/-- The body of the formatter once validation has passed: read the
Fahrenheit value (`["Temperature"]["Imperial"]["Value"]`, a `TypeError`
when the chain is broken), classify, read the Metric value, and build the
alert object. -/
def jsFormatChecked (loc locID : String) (cond : Conditions) (rand : ℚ) :
    Except JSErr AlertJSON :=
  match cond.Temperature with
  | none => .error .typeError
  | some tempObj =>
    match tempObj.Imperial with
    | none => .error .typeError
    | some imperial =>
      match jsStatus (truthy cond.HasPrecipitation) imperial.Value cond.WeatherText with
      | .error e => .error e
      | .ok status =>
        match tempObj.Metric with
        | none => .error .typeError
        | some metric =>
          .ok { host := loc, status := status, check := "Weather Check",
                incident_identifier := locID ++ "_" ++ toString (floorMul101 rand),
                condition := cond.WeatherText,
                precipitation := cond.HasPrecipitation,
                precipitation_type := cond.PrecipitationType,
                link := cond.Link,
                temperature_celsius := metric.Value,
                temperature_farenheit := imperial.Value }

/-- `formatConditionsAsBigPandaAlert(location, locationID, conditionsJSON)`.
`rand` is the value drawn from `Math.random()` for this call (the injected
uniqueness source, a rational in `[0, 1)` in the real generator, though the
definition is total in it); the incident-identifier suffix is
`Math.floor(rand * 101)`.  Validation failures throw `AccuWeatherError`
(guards in source order: location name, location ID, then
`!conditionsJSON || !Object.keys(conditionsJSON).length`). -/
def jsFormat (location locationID : Option String) (conditionsJSON : Option Conditions)
    (rand : ℚ) : Except JSErr AlertJSON :=
  if strFalsyOrBlank location then
    .error (.accuErr "Error: Please provide a location name to format the BigPanda alert.")
  else if strFalsyOrBlank locationID then
    .error (.accuErr "Error: Please provide a location ID to format the BigPanda alert.")
  else
    match conditionsJSON with
    | none =>
      .error (.accuErr "Error: Please provide a valid response from the Current Conditions endpoint.")
    | some cond =>
      if keyCount cond == 0 then
        .error (.accuErr "Error: Please provide a valid response from the Current Conditions endpoint.")
      else
        match location, locationID with
        | some loc, some locID => jsFormatChecked loc locID cond rand
        | _, _ => .error .typeError

/-- True exactly when the call failed with the formatter's own validation
error (`AccuWeatherError`, the spec's `InvalidInput`), as opposed to
succeeding or failing with a runtime `TypeError`. -/
def isInvalidInput : Except JSErr AlertJSON → Bool
  | .error (.accuErr _) => true
  | _ => false

/-- The reference severity classification, stated exactly as the
specification words it: `critical` if the precipitation flag is true or the
Fahrenheit temperature is at least 102 or below 32, regardless of condition
text; otherwise `ok` if the condition text case-insensitively contains
"sunny"; otherwise `warning`. -/
def referenceSeverity (precipitation : Bool) (farenheit : ℚ) (conditionText : String) : String :=
  if precipitation ∨ farenheit ≥ 102 ∨ farenheit < 32 then "critical"
  else if jsIncludes (jsToLower conditionText) "sunny" then "ok"
  else "warning"

/-- The Fahrenheit reading the formatter works from
(`conditionsJSON["Temperature"]["Imperial"]["Value"]`), defaulting to `0`
where the access chain is broken (in which case the formatter throws
before producing an alert). -/
def imperialValue (c : Conditions) : ℚ :=
  match c.Temperature with
  | none => 0
  | some t =>
    match t.Imperial with
    | none => 0
    | some s => s.Value

/-- The Celsius reading
(`conditionsJSON["Temperature"]["Metric"]["Value"]`), defaulting to `0`
where the access chain is broken (in which case the formatter throws
before producing an alert). -/
def metricValue (c : Conditions) : ℚ :=
  match c.Temperature with
  | none => 0
  | some t =>
    match t.Metric with
    | none => 0
    | some s => s.Value

/-- The alert that a successful formatting call produces, written directly
in terms of the inputs: host and identity fields from the location data and
the uniqueness source, severity from the reference classification, and the
remaining fields copied from the observation. -/
def canonicalAlert (loc locID : String) (c : Conditions) (u : ℚ) : AlertJSON :=
  { host := loc,
    status := referenceSeverity (truthy c.HasPrecipitation) (imperialValue c)
      (c.WeatherText.getD ""),
    check := "Weather Check",
    incident_identifier := locID ++ "_" ++ toString (floorMul101 u),
    condition := c.WeatherText,
    precipitation := c.HasPrecipitation,
    precipitation_type := c.PrecipitationType,
    link := c.Link,
    temperature_celsius := metricValue c,
    temperature_farenheit := imperialValue c }

/-! ## Weather fetch: `AccuWeatherAPI.fetchCurrentConditions`
(`src/api-handlers/accuweather.ts`, lines 32–42). -/

/-- The outbound request built by `fetchCurrentConditions`. -/
structure FetchRequest where
  url : String
  apikey : String
deriving DecidableEq, Repr

/-- `fetchCurrentConditions(locationID)`: rejects a falsy or blank location
ID with an `AccuWeatherError`, otherwise issues the GET request. -/
def fetchCurrentConditions (apiKey : String) (locationID : Option String) :
    Except JSErr FetchRequest :=
  if strFalsyOrBlank locationID then
    .error (.accuErr "Error: Please provide a location ID to fetch weather conditions.")
  else
    match locationID with
    | some lid =>
      .ok { url := "https://dataservice.accuweather.com/currentconditions/v1/" ++ lid,
            apikey := apiKey }
    | none => .error .typeError

/-! ## Alert sink: `BigPandaAPI.sendAlert`
(`src/api-handlers/bigpanda.ts`, lines 34–60). -/

/-- The alert object handed to `sendAlert` (the parse of a queued message
body).  `host`, `status` and `app_key` are its distinguished properties;
`rest` carries every other property of the caller's object. -/
structure BPAlert where
  host : Option String
  status : Option String
  app_key : Option String
  rest : List (String × String)
deriving DecidableEq, Repr

/-- The `alert` argument as a JavaScript value: `undefined`, an `Array`,
or a plain object. -/
inductive BPArg where
  | undef : BPArg
  | array : BPArg
  | obj (a : BPAlert) : BPArg
deriving DecidableEq, Repr

/-- Errors thrown by the BigPanda handler (`BigPandaError`). -/
inductive BPErr where
  | bigPandaError (msg : String) : BPErr
deriving DecidableEq, Repr

/-- The outbound POST built by `sendAlert`. -/
structure BPRequest where
  url : String
  bearer : String
  jsonBody : BPAlert
deriving DecidableEq, Repr

/-- `BigPandaAPI.sendAlert(appKey, alert)`: validates the app key, the
alert's existence and non-array-ness, and the non-emptiness of the
required `host` and `status` fields, in source order; then executes
`alert["app_key"] = appKey` — mutating the caller's object — and POSTs
that same object.  The returned pair is (the caller's alert object after
the call, the request made). -/
def sendAlert (bearerToken : String) (appKey : Option String) (alert : BPArg) :
    Except BPErr (BPAlert × BPRequest) :=
  if strFalsyOrBlank appKey then
    .error (.bigPandaError "Error: An App Key is required to use the BigPanda service.")
  else
    match appKey, alert with
    | some key, .obj a =>
      if strFalsyOrBlank a.host then
        .error (.bigPandaError "Error: Alert JSON missing required field: host.")
      else if strFalsyOrBlank a.status then
        .error (.bigPandaError "Error: Alert JSON missing required field: status.")
      else
        let mutated : BPAlert := { a with app_key := some key }
        .ok (mutated, { url := "https://api.bigpanda.io/data/v2/alerts",
                        bearer := bearerToken, jsonBody := mutated })
    | _, .undef => .error (.bigPandaError "Error: Please provide an alert JSON.")
    | _, .array => .error (.bigPandaError "Error: Alert JSON cannot be an Array.")
    | none, .obj _ => .error (.bigPandaError "Error: An App Key is required to use the BigPanda service.")

/-! ## Inbound HTTP handler: `app.post("/alert")`
(`src/app.ts`, current revision, lines 353–374). -/

/-- A response written by the `/alert` handler during its synchronous
validation phase. -/
structure AlertResponse where
  statusCode : Nat
  body : String
deriving DecidableEq, Repr

/-- Observable synchronous behaviour of one `/alert` request: the
validation responses sent, whether the weather fetch was invoked, and the
(synchronous) outcome of that fetch call. -/
structure AlertHandlerTrace where
  responses : List AlertResponse
  fetchCalled : Bool
  fetchResult : Except JSErr FetchRequest
deriving DecidableEq, Repr

/-- The `/alert` handler's synchronous phase: sends a 400 for a falsy or
blank `locationName`, else a 400 for a falsy or blank `locationID` — and
then, with no early return, unconditionally proceeds to call
`accuWeatherAPI.fetchCurrentConditions(locationID)`. -/
def alertEndpoint (apiKey : String) (locationName locationID : Option String) :
    AlertHandlerTrace :=
  let responses : List AlertResponse :=
    if strFalsyOrBlank locationName then
      [{ statusCode := 400, body := "Please provide a valid location name." }]
    else if strFalsyOrBlank locationID then
      [{ statusCode := 400, body := "Please provide a valid location ID," }]
    else []
  { responses := responses,
    fetchCalled := true,
    fetchResult := fetchCurrentConditions apiKey locationID }

/-! ## Sample data (concrete instances used to exhibit behaviour) -/

/-- An observation like the repository's own 200-response fixture:
62 °F (17 °C here, kept integral), no precipitation, "Partly cloudy". -/
def sampleConditions : Conditions :=
  { Temperature := some ⟨some ⟨62⟩, some ⟨17⟩⟩,
    HasPrecipitation := some false,
    WeatherText := some "Partly cloudy",
    PrecipitationType := some none,
    Link := some "http://www.accuweather.com/en/us/new-york-ny/10007/current-weather/349727",
    extraFields := 0 }

/-- An observation object that has one field, but none of the fields the
formatter recognises (a JavaScript object such as `{foo: 1}`). -/
def unrecognizedConditions : Conditions :=
  { Temperature := none, HasPrecipitation := none, WeatherText := none,
    PrecipitationType := none, Link := none, extraFields := 1 }

/-! ## Characterization lemmas -/

/-- Reduction of `handleSQSError` when the attribute map is absent. -/
theorem handleSQSError_absent (b : Option String) :
    handleSQSError ⟨b, none⟩ =
      ⟨true, .int 0, .deadLetter, sendMessage (some (.int 0)) b⟩ := rfl

/-- Reduction of `handleSQSError` when the map has no `Retries` key. -/
theorem handleSQSError_noKey (b : Option String) :
    handleSQSError ⟨b, some none⟩ =
      ⟨true, .int 0, .deadLetter, sendMessage (some (.int 0)) b⟩ := rfl

/-- Reduction of `handleSQSError` when the `Retries` attribute is present. -/
theorem handleSQSError_attr (b : Option String) (sv : Option String) :
    handleSQSError ⟨b, some (some sv)⟩ =
      if (jsParseInt sv).falsy || (jsParseInt sv).leZero then
        ⟨false, jsParseInt sv, .deadLetter, sendMessage (some (jsParseInt sv)) b⟩
      else
        ⟨false, (jsParseInt sv).dec, .primary,
         sendMessage (some ((jsParseInt sv).dec)) b⟩ := rfl

/-- Reduction of `sendMessage` on a present body. -/
theorem sendMessage_some (r : Option JSNum) (body : String) :
    sendMessage r (some body) =
      if body == "" || jsTrim body == "" then
        .error (.sqsHandlerError "Please provide a valid message to send to SQS.")
      else .ok ⟨10, r, body⟩ := rfl

/-- A string with a non-empty trim passes the body-validity guard. -/
theorem nonblankGuard {s : String} (hs : jsTrim s ≠ "") :
    (s == "" || jsTrim s == "") = false := by
  simp only [Bool.or_eq_false_iff, beq_eq_false_iff_ne, ne_eq]
  exact ⟨fun e => hs (by subst e; rfl), hs⟩

/-- Reduction of `sendAlert` on a present key and a plain alert object. -/
theorem sendAlert_obj (bearer key : String) (a : BPAlert) :
    sendAlert bearer (some key) (.obj a) =
      if strFalsyOrBlank (some key) then
        .error (.bigPandaError "Error: An App Key is required to use the BigPanda service.")
      else if strFalsyOrBlank a.host then
        .error (.bigPandaError "Error: Alert JSON missing required field: host.")
      else if strFalsyOrBlank a.status then
        .error (.bigPandaError "Error: Alert JSON missing required field: status.")
      else
        .ok ({ a with app_key := some key },
             { url := "https://api.bigpanda.io/data/v2/alerts", bearer := bearer,
               jsonBody := { a with app_key := some key } }) := rfl

/-- A successful `jsStatus` result agrees with the reference severity
classification (with the condition text read as `""` when absent, a case
that can only be reached with a `critical` classification). -/
theorem jsStatus_ok (p : Bool) (f : ℚ) (W : Option String) (s : String)
    (h : jsStatus p f W = .ok s) : s = referenceSeverity p f (W.getD "") := by
  unfold jsStatus at h
  unfold referenceSeverity
  by_cases hc : (p || decide (f ≥ 102) || decide (f < 32)) = true
  · rw [if_pos hc] at h
    injection h with h1
    subst h1
    rw [if_pos (by simpa [or_assoc] using hc)]
  · rw [if_neg hc] at h
    rcases W with _ | w
    · exact Except.noConfusion h
    · injection h with h1
      subst h1
      have hcp : ¬(p = true ∨ f ≥ 102 ∨ f < 32) := by simpa [or_assoc] using hc
      rw [if_neg hcp]
      rfl

/-- Every alert a successful checked-formatting call produces is the
canonical alert of its inputs. -/
theorem jsFormatChecked_ok (loc locID : String) (cond : Conditions) (u : ℚ) (a : AlertJSON)
    (h : jsFormatChecked loc locID cond u = .ok a) :
    a = canonicalAlert loc locID cond u := by
  unfold jsFormatChecked at h
  split at h
  · exact Except.noConfusion h
  rename_i tempObj hT
  split at h
  · exact Except.noConfusion h
  rename_i imperial hI
  split at h
  · exact Except.noConfusion h
  rename_i status hS
  split at h
  · exact Except.noConfusion h
  rename_i metric hM
  have hstat := jsStatus_ok _ _ _ _ hS
  have ha := (Except.ok.injEq _ _).mp h
  subst ha
  simp [canonicalAlert, imperialValue, metricValue, hT, hI, hM, hstat]

/-- Every alert a successful formatting call produces is the canonical
alert of its inputs. -/
theorem jsFormat_ok_canonical (loc locID : String) (cond : Conditions) (u : ℚ) (a : AlertJSON)
    (h : jsFormat (some loc) (some locID) (some cond) u = .ok a) :
    a = canonicalAlert loc locID cond u := by
  unfold jsFormat at h
  split at h
  · exact Except.noConfusion h
  split at h
  · exact Except.noConfusion h
  split at h
  · exact Except.noConfusion h
  rename_i c hceq
  obtain rfl : cond = c := Option.some.inj hceq
  split at h
  · exact Except.noConfusion h
  exact jsFormatChecked_ok _ _ _ _ _ h

/-! ## Theorems -/

/-- Claim C2: for every failed delivery of a message whose retry budget
`n` satisfies `n > 0`, the retry policy re-enqueues the message body to
the primary queue with the budget attribute set to `n − 1`; for every
failed delivery with budget `n ≤ 0` or with no budget attribute present,
it routes the message body to the dead-letter queue. -/
theorem retryPolicy_routing (b : String) (attrs : Option (Option (Option String)))
    (hb : jsTrim b ≠ "") :
    (∀ sv n, attrs = some (some sv) → jsParseInt sv = .int n → 0 < n →
        (handleSQSError ⟨some b, attrs⟩).dest = .primary ∧
        (handleSQSError ⟨some b, attrs⟩).send = .ok ⟨10, some (.int (n - 1)), b⟩) ∧
    (∀ sv n, attrs = some (some sv) → jsParseInt sv = .int n → n ≤ 0 →
        (handleSQSError ⟨some b, attrs⟩).dest = .deadLetter ∧
        (handleSQSError ⟨some b, attrs⟩).send = .ok ⟨10, some (.int n), b⟩) ∧
    ((attrs = none ∨ attrs = some none) →
        (handleSQSError ⟨some b, attrs⟩).dest = .deadLetter ∧
        (handleSQSError ⟨some b, attrs⟩).send = .ok ⟨10, some (.int 0), b⟩) := by
  have hb' := nonblankGuard hb
  refine ⟨?_, ?_, ?_⟩
  · rintro sv n rfl hp hn
    have hc : ((jsParseInt sv).falsy || (jsParseInt sv).leZero) = false := by
      rw [hp]; simp [JSNum.falsy, JSNum.leZero]; omega
    rw [handleSQSError_attr, if_neg (by rw [hc]; exact Bool.false_ne_true), hp]
    refine ⟨rfl, ?_⟩
    rw [JSNum.dec, sendMessage_some, if_neg (by rw [hb']; exact Bool.false_ne_true)]
  · rintro sv n rfl hp hn
    have hc : ((jsParseInt sv).falsy || (jsParseInt sv).leZero) = true := by
      rw [hp]; simp [JSNum.falsy, JSNum.leZero]; omega
    rw [handleSQSError_attr, if_pos hc, hp]
    refine ⟨rfl, ?_⟩
    rw [sendMessage_some, if_neg (by rw [hb']; exact Bool.false_ne_true)]
  · have hsend : sendMessage (some (.int 0)) (some b) = .ok ⟨10, some (.int 0), b⟩ := by
      rw [sendMessage_some, if_neg (by rw [hb']; exact Bool.false_ne_true)]
    rintro (rfl | rfl)
    · rw [handleSQSError_absent]; exact ⟨rfl, hsend⟩
    · rw [handleSQSError_noKey]; exact ⟨rfl, hsend⟩

/-- Witness for C2 at budget `3` and body `"x"`: requeued to the primary
queue with budget `2`. -/
theorem retryPolicy_routing_witness :
    (handleSQSError ⟨some "x", some (some (some "3"))⟩).dest = Destination.primary ∧
    (handleSQSError ⟨some "x", some (some (some "3"))⟩).send
        = .ok ⟨10, some (.int 2), "x"⟩ :=
  (retryPolicy_routing "x" (some (some (some "3"))) (by decide)).1 "3" 3 rfl (by decide)
    (by decide)

/-- Claim C3, counterexample: a failed message carrying the budget
attribute `"-5"` is routed to the dead-letter queue by `handleSQSError`,
and the message it produces carries the budget attribute `-5`, which is
negative — so produced attributes can be negative when the incoming
budget is negative. -/
theorem producedBudget_negative_counterexample :
    (handleSQSError ⟨some "b", some (some (some "-5"))⟩).send
        = .ok ⟨10, some (.int (-5)), "b"⟩
    ∧ ((-5 : Int) < 0) := by decide

/-- Claim C3 (amended): every message the retry policy re-enqueues to the
primary queue carries a non-negative budget attribute; a message routed to
the dead-letter queue keeps the incoming parsed budget, which is negative
exactly when the incoming attribute was negative. -/
theorem requeuedBudget_nonneg (msg : SQSMessage) (p : SendParams)
    (hd : (handleSQSError msg).dest = .primary)
    (hs : (handleSQSError msg).send = .ok p) :
    ∃ n : Int, p.RetriesAttribute = some (.int n) ∧ 0 ≤ n := by
  obtain ⟨B, A⟩ := msg
  rcases A with _ | A
  · rw [handleSQSError_absent] at hd; exact absurd hd (by simp)
  rcases A with _ | sv
  · rw [handleSQSError_noKey] at hd; exact absurd hd (by simp)
  rw [handleSQSError_attr] at hd hs
  by_cases hc : ((jsParseInt sv).falsy || (jsParseInt sv).leZero) = true
  · rw [if_pos hc] at hd; exact absurd hd (by simp)
  · rw [if_neg hc] at hd hs
    rcases hP : jsParseInt sv with _ | n
    · rw [hP] at hc; exact absurd rfl hc
    · have hn : 0 < n := by
        rw [hP] at hc
        simp only [JSNum.falsy, JSNum.leZero, Bool.or_eq_true, beq_iff_eq,
          decide_eq_true_eq, not_or] at hc
        omega
      rw [hP, JSNum.dec] at hs
      rcases B with _ | body
      · exact absurd hs (by simp [sendMessage])
      · rw [sendMessage_some] at hs
        by_cases hbad : (body == "" || jsTrim body == "") = true
        · rw [if_pos hbad] at hs; exact absurd hs (by simp)
        · rw [if_neg hbad] at hs
          have hp := (Except.ok.injEq _ _).mp hs
          refine ⟨n - 1, ?_, by omega⟩
          rw [← hp]

/-- Witness for the amended C3 at incoming budget `3`: the requeued
message's attribute is `2 ≥ 0`. -/
theorem requeuedBudget_nonneg_witness :
    ∃ n : Int,
      (SendParams.RetriesAttribute ⟨10, some (.int 2), "x"⟩) = some (.int n) ∧ 0 ≤ n :=
  requeuedBudget_nonneg ⟨some "x", some (some (some "3"))⟩ ⟨10, some (.int 2), "x"⟩
    (by decide) (by decide)

/-- Claim C4, counterexample: a failed message whose budget attribute is
present but unparseable (`"abc"`) is not treated as `0` and nothing is
logged: `parseInt` yields `NaN` without throwing, so the catch block never
runs, and the dead-letter message carries a `NaN` budget attribute rather
than `0`. -/
theorem unparseableBudget_counterexample :
    (handleSQSError ⟨some "b", some (some (some "abc"))⟩).loggedNoRetries = false
    ∧ (handleSQSError ⟨some "b", some (some (some "abc"))⟩).remainingRetries = .nan
    ∧ (handleSQSError ⟨some "b", some (some (some "abc"))⟩).send
        = .ok ⟨10, some .nan, "b"⟩ := by decide

/-- Claim C4 (amended): when the budget attribute (or the whole attribute
map) is absent, the retry policy treats the budget as `0`, logs that no
budget was present, and routes to the dead-letter queue; when the
attribute is present but its value does not parse as a number, the budget
becomes `NaN`, the message is still routed to the dead-letter queue, but
nothing is logged and the budget is not set to `0`. -/
theorem missingBudget_policy (b : String) :
    (∀ attrs, attrs = none ∨ attrs = some none →
        (handleSQSError ⟨some b, attrs⟩).loggedNoRetries = true ∧
        (handleSQSError ⟨some b, attrs⟩).remainingRetries = .int 0 ∧
        (handleSQSError ⟨some b, attrs⟩).dest = .deadLetter) ∧
    (∀ sv, jsParseInt sv = .nan →
        (handleSQSError ⟨some b, some (some sv)⟩).loggedNoRetries = false ∧
        (handleSQSError ⟨some b, some (some sv)⟩).remainingRetries = .nan ∧
        (handleSQSError ⟨some b, some (some sv)⟩).dest = .deadLetter) := by
  constructor
  · rintro attrs (rfl | rfl)
    · rw [handleSQSError_absent]; exact ⟨rfl, rfl, rfl⟩
    · rw [handleSQSError_noKey]; exact ⟨rfl, rfl, rfl⟩
  · intro sv hP
    rw [handleSQSError_attr, if_pos (by rw [hP]; rfl), hP]
    exact ⟨rfl, rfl, rfl⟩

/-- Witness for the amended C4: an absent attribute map is logged and
treated as budget `0`; the unparseable value `"zzz"` is not logged and
becomes `NaN`; both go to the dead-letter queue. -/
theorem missingBudget_policy_witness :
    ((handleSQSError ⟨some "x", none⟩).loggedNoRetries = true ∧
     (handleSQSError ⟨some "x", none⟩).remainingRetries = .int 0 ∧
     (handleSQSError ⟨some "x", none⟩).dest = .deadLetter) ∧
    ((handleSQSError ⟨some "x", some (some (some "zzz"))⟩).loggedNoRetries = false ∧
     (handleSQSError ⟨some "x", some (some (some "zzz"))⟩).remainingRetries = .nan ∧
     (handleSQSError ⟨some "x", some (some (some "zzz"))⟩).dest = .deadLetter) :=
  ⟨(missingBudget_policy "x").1 none (Or.inl rfl),
   (missingBudget_policy "x").2 (some "zzz") (by decide)⟩

/-- Claim C7, counterexample: the producer path enqueues a freshly
formatted alert by `sendMessage(5, …)`, which sets the `Retries` budget
attribute to `5` — the fresh message does not go out without a
retry-budget attribute. -/
theorem producerBudget_counterexample :
    producerEnqueue "alert" = .ok ⟨10, some (.int 5), "alert"⟩
    ∧ some (JSNum.int 5) ≠ (none : Option JSNum) := by decide

/-- Claim C7 (amended): every fresh producer-path message is enqueued with
the retry-budget attribute explicitly set to the constant `5` (the full
configured budget). -/
theorem producer_initial_budget (s : String) (hs : jsTrim s ≠ "") :
    producerEnqueue s = .ok ⟨10, some (.int 5), s⟩ := by
  rw [producerEnqueue, sendMessage_some,
    if_neg (by rw [nonblankGuard hs]; exact Bool.false_ne_true)]

/-- Witness for the amended C7 at a concrete alert body. -/
theorem producer_initial_budget_witness :
    producerEnqueue "alert" = .ok ⟨10, some (.int 5), "alert"⟩ :=
  producer_initial_budget "alert" (by decide)

/-- Claim C1: for every observation, the severity computed by the
formatter equals the reference classification evaluated in precedence
order — `critical` when the precipitation flag is truthy or the Fahrenheit
temperature is at least 102 or below 32 (regardless of condition text);
otherwise `ok` when the condition text case-insensitively contains
"sunny"; otherwise `warning`. -/
theorem severity_matches_reference (loc locID : String) (cond : Conditions) (rand : ℚ)
    (a : AlertJSON)
    (h : jsFormat (some loc) (some locID) (some cond) rand = .ok a) :
    a.status = referenceSeverity (truthy cond.HasPrecipitation) (imperialValue cond)
      (cond.WeatherText.getD "") := by
  rw [jsFormat_ok_canonical loc locID cond rand a h]
  rfl

/-- Witness for C1 on the repository's fixture observation (62 °F, no
precipitation, "Partly cloudy"): formatting succeeds and the status is the
reference severity, `"warning"`. -/
theorem severity_matches_reference_witness :
    (canonicalAlert "location" "location_id" sampleConditions 0).status
      = referenceSeverity (truthy sampleConditions.HasPrecipitation)
          (imperialValue sampleConditions) (sampleConditions.WeatherText.getD "") :=
  severity_matches_reference "location" "location_id" sampleConditions 0
    (canonicalAlert "location" "location_id" sampleConditions 0) (by decide)

/-- Claim C5: formatting the same valid record twice with two distinct
uniqueness-source values yields payloads that agree on every field except
`incident_identifier`, and each `incident_identifier` is the location
identifier, an underscore, and the suffix derived from that call's
uniqueness source. -/
theorem format_unique_suffix (loc locID : String) (cond : Conditions) (u1 u2 : ℚ)
    (a1 a2 : AlertJSON) (hne : u1 ≠ u2)
    (h1 : jsFormat (some loc) (some locID) (some cond) u1 = .ok a1)
    (h2 : jsFormat (some loc) (some locID) (some cond) u2 = .ok a2) :
    a1.host = a2.host ∧ a1.status = a2.status ∧ a1.check = a2.check ∧
    a1.condition = a2.condition ∧ a1.precipitation = a2.precipitation ∧
    a1.precipitation_type = a2.precipitation_type ∧ a1.link = a2.link ∧
    a1.temperature_celsius = a2.temperature_celsius ∧
    a1.temperature_farenheit = a2.temperature_farenheit ∧
    a1.incident_identifier = locID ++ "_" ++ toString (floorMul101 u1) ∧
    a2.incident_identifier = locID ++ "_" ++ toString (floorMul101 u2) := by
  rw [jsFormat_ok_canonical loc locID cond u1 a1 h1,
    jsFormat_ok_canonical loc locID cond u2 a2 h2]
  exact ⟨rfl, rfl, rfl, rfl, rfl, rfl, rfl, rfl, rfl, rfl, rfl⟩

/-- Witness for C5 on the fixture observation with uniqueness sources `0`
and `1` (suffixes `0` and `101`). -/
theorem format_unique_suffix_witness :
    (canonicalAlert "location" "location_id" sampleConditions 0).host
      = (canonicalAlert "location" "location_id" sampleConditions 1).host ∧
    (canonicalAlert "location" "location_id" sampleConditions 0).status
      = (canonicalAlert "location" "location_id" sampleConditions 1).status ∧
    (canonicalAlert "location" "location_id" sampleConditions 0).check
      = (canonicalAlert "location" "location_id" sampleConditions 1).check ∧
    (canonicalAlert "location" "location_id" sampleConditions 0).condition
      = (canonicalAlert "location" "location_id" sampleConditions 1).condition ∧
    (canonicalAlert "location" "location_id" sampleConditions 0).precipitation
      = (canonicalAlert "location" "location_id" sampleConditions 1).precipitation ∧
    (canonicalAlert "location" "location_id" sampleConditions 0).precipitation_type
      = (canonicalAlert "location" "location_id" sampleConditions 1).precipitation_type ∧
    (canonicalAlert "location" "location_id" sampleConditions 0).link
      = (canonicalAlert "location" "location_id" sampleConditions 1).link ∧
    (canonicalAlert "location" "location_id" sampleConditions 0).temperature_celsius
      = (canonicalAlert "location" "location_id" sampleConditions 1).temperature_celsius ∧
    (canonicalAlert "location" "location_id" sampleConditions 0).temperature_farenheit
      = (canonicalAlert "location" "location_id" sampleConditions 1).temperature_farenheit ∧
    (canonicalAlert "location" "location_id" sampleConditions 0).incident_identifier
      = "location_id" ++ "_" ++ toString (floorMul101 (0 : ℚ)) ∧
    (canonicalAlert "location" "location_id" sampleConditions 1).incident_identifier
      = "location_id" ++ "_" ++ toString (floorMul101 (1 : ℚ)) :=
  format_unique_suffix "location" "location_id" sampleConditions 0 1
    (canonicalAlert "location" "location_id" sampleConditions 0)
    (canonicalAlert "location" "location_id" sampleConditions 1)
    (by norm_num) (by decide) (by decide)

/-- Claim C6, counterexample: an observation that has a field but none the
formatter recognises (such as `{foo: 1}`) passes the
`Object.keys(conditionsJSON).length` guard and makes the call fail with a
runtime `TypeError` on the temperature access chain — not with the
`AccuWeatherError` validation error (the spec's `InvalidInput`). -/
theorem formatter_unrecognized_counterexample :
    jsFormat (some "location") (some "location_id") (some unrecognizedConditions) 0
        = .error .typeError
    ∧ isInvalidInput (jsFormat (some "location") (some "location_id")
        (some unrecognizedConditions) 0) = false := by decide

/-- Claim C6 (amended): the formatter fails with its `InvalidInput`
validation error whenever the location name is absent, empty or blank
after trimming, or the location ID is, or the observation is absent or
has no fields at all; an observation that has fields, none of them
recognised, instead passes validation and fails later with a generic
runtime error. -/
theorem invalidInput_guard (location locationID : Option String) (cond : Option Conditions)
    (u : ℚ)
    (h : strFalsyOrBlank location = true ∨ strFalsyOrBlank locationID = true ∨
         cond = none ∨ (∃ c, cond = some c ∧ keyCount c = 0)) :
    isInvalidInput (jsFormat location locationID cond u) = true := by
  rcases h with h | h | h | ⟨c, rfl, hk⟩
  · unfold jsFormat
    rw [if_pos h]
    rfl
  · unfold jsFormat
    by_cases h1 : strFalsyOrBlank location = true
    · rw [if_pos h1]; rfl
    · rw [if_neg h1, if_pos h]; rfl
  · subst h
    unfold jsFormat
    by_cases h1 : strFalsyOrBlank location = true
    · rw [if_pos h1]; rfl
    · rw [if_neg h1]
      by_cases h2 : strFalsyOrBlank locationID = true
      · rw [if_pos h2]; rfl
      · rw [if_neg h2]; rfl
  · unfold jsFormat
    by_cases h1 : strFalsyOrBlank location = true
    · rw [if_pos h1]; rfl
    · rw [if_neg h1]
      by_cases h2 : strFalsyOrBlank locationID = true
      · rw [if_pos h2]; rfl
      · rw [if_neg h2]
        have hkb : (keyCount c == 0) = true := beq_iff_eq.mpr hk
        simp only [hkb, if_true]
        rfl

/-- Witness for the amended C6: an absent location name yields the
validation error even with a fully valid observation. -/
theorem invalidInput_guard_witness :
    isInvalidInput (jsFormat none (some "location_id") (some sampleConditions) 0) = true :=
  invalidInput_guard none (some "location_id") (some sampleConditions) 0 (Or.inl rfl)

/-- Claim C8: for every `/alert` request with an absent, empty or blank
`locationName` or `locationID`, the handler sends a 400 response, and —
with no early return — still falls through and invokes the weather fetch
for that same request. -/
theorem alertEndpoint_fallthrough (apiKey : String) (locationName locationID : Option String)
    (h : strFalsyOrBlank locationName = true ∨ strFalsyOrBlank locationID = true) :
    (∃ r, r ∈ (alertEndpoint apiKey locationName locationID).responses ∧
        r.statusCode = 400) ∧
    (alertEndpoint apiKey locationName locationID).fetchCalled = true ∧
    (alertEndpoint apiKey locationName locationID).fetchResult
        = fetchCurrentConditions apiKey locationID := by
  refine ⟨?_, rfl, rfl⟩
  simp only [alertEndpoint]
  by_cases h1 : strFalsyOrBlank locationName = true
  · rw [if_pos h1]
    exact ⟨_, List.mem_singleton_self _, rfl⟩
  · rw [if_neg h1]
    rcases h with h | h
    · exact absurd h h1
    · rw [if_pos h]
      exact ⟨_, List.mem_singleton_self _, rfl⟩

/-- Witness for C8: a request with no `locationName` gets a 400 and the
fetch is still invoked (here returning its own validation error for the
present ID, i.e. the GET request to the conditions endpoint). -/
theorem alertEndpoint_fallthrough_witness :
    (∃ r, r ∈ (alertEndpoint "api_key" none (some "351193")).responses ∧
        r.statusCode = 400) ∧
    (alertEndpoint "api_key" none (some "351193")).fetchCalled = true ∧
    (alertEndpoint "api_key" none (some "351193")).fetchResult
        = fetchCurrentConditions "api_key" (some "351193") :=
  alertEndpoint_fallthrough "api_key" none (some "351193") (Or.inl rfl)

/-- Claim C9: the alert sink rejects, with an error thrown before the
outbound POST is built, every payload whose `host` or `status` is absent,
empty or blank after trimming; with both non-empty (and a valid app key)
the outbound call is made. -/
theorem sendAlert_requires_host_status (bearer key : String) (a : BPAlert)
    (hk : jsTrim key ≠ "") :
    ((strFalsyOrBlank a.host = true ∨ strFalsyOrBlank a.status = true) →
      ∃ m, sendAlert bearer (some key) (.obj a) = .error (.bigPandaError m)) ∧
    (strFalsyOrBlank a.host = false → strFalsyOrBlank a.status = false →
      ∃ p, sendAlert bearer (some key) (.obj a) = .ok p) := by
  have hkey : strFalsyOrBlank (some key) = false := nonblankGuard hk
  rw [sendAlert_obj, if_neg (by rw [hkey]; exact Bool.false_ne_true)]
  constructor
  · rintro (hh | hs2)
    · rw [if_pos hh]
      exact ⟨_, rfl⟩
    · by_cases hh : strFalsyOrBlank a.host = true
      · rw [if_pos hh]
        exact ⟨_, rfl⟩
      · rw [if_neg hh, if_pos hs2]
        exact ⟨_, rfl⟩
  · intro hh hs2
    rw [if_neg (by rw [hh]; exact Bool.false_ne_true),
      if_neg (by rw [hs2]; exact Bool.false_ne_true)]
    exact ⟨_, rfl⟩

/-- Witness for C9: a payload with a blank `host` is rejected, and the
same payload with `host` present is posted. -/
theorem sendAlert_requires_host_status_witness :
    (∃ m, sendAlert "bearer" (some "app_key") (.obj ⟨some "  ", some "warning", none, []⟩)
        = .error (.bigPandaError m)) ∧
    (∃ p, sendAlert "bearer" (some "app_key") (.obj ⟨some "location", some "warning", none, []⟩)
        = .ok p) :=
  ⟨(sendAlert_requires_host_status "bearer" "app_key" ⟨some "  ", some "warning", none, []⟩
      (by decide)).1 (Or.inl (by decide)),
   (sendAlert_requires_host_status "bearer" "app_key" ⟨some "location", some "warning", none, []⟩
      (by decide)).2 (by decide) (by decide)⟩

/-- Claim C10: when the alert sink posts, it has written the application
key into the `app_key` field of the caller's alert object (the argument
itself, not a copy): after the call the caller's object carries
`app_key = appKey`, every other field is unchanged, and the body of the
POST is that very object. -/
theorem sendAlert_mutates_app_key (bearer key : String) (a : BPAlert)
    (out : BPAlert × BPRequest)
    (h : sendAlert bearer (some key) (.obj a) = .ok out) :
    out.1 = { a with app_key := some key } ∧
    out.1.host = a.host ∧ out.1.status = a.status ∧ out.1.rest = a.rest ∧
    out.2.jsonBody = out.1 := by
  rw [sendAlert_obj] at h
  split at h
  · exact Except.noConfusion h
  split at h
  · exact Except.noConfusion h
  split at h
  · exact Except.noConfusion h
  have hout := (Except.ok.injEq _ _).mp h
  subst hout
  exact ⟨rfl, rfl, rfl, rfl, rfl⟩

/-- Witness for C10 on a concrete payload: the posted object is the
caller's object with `app_key` filled in and everything else intact. -/
theorem sendAlert_mutates_app_key_witness :
    ({ host := some "location", status := some "warning", app_key := some "app_key",
       rest := [("condition", "Partly cloudy")] } : BPAlert)
      = { (⟨some "location", some "warning", none,
            [("condition", "Partly cloudy")]⟩ : BPAlert) with app_key := some "app_key" } ∧
    (({ host := some "location", status := some "warning", app_key := some "app_key",
        rest := [("condition", "Partly cloudy")] } : BPAlert)).host
      = (⟨some "location", some "warning", none,
          [("condition", "Partly cloudy")]⟩ : BPAlert).host ∧
    (({ host := some "location", status := some "warning", app_key := some "app_key",
        rest := [("condition", "Partly cloudy")] } : BPAlert)).status
      = (⟨some "location", some "warning", none,
          [("condition", "Partly cloudy")]⟩ : BPAlert).status ∧
    (({ host := some "location", status := some "warning", app_key := some "app_key",
        rest := [("condition", "Partly cloudy")] } : BPAlert)).rest
      = (⟨some "location", some "warning", none,
          [("condition", "Partly cloudy")]⟩ : BPAlert).rest ∧
    ({ url := "https://api.bigpanda.io/data/v2/alerts", bearer := "bearer",
       jsonBody := { host := some "location", status := some "warning",
                     app_key := some "app_key",
                     rest := [("condition", "Partly cloudy")] } } : BPRequest).jsonBody
      = ({ host := some "location", status := some "warning", app_key := some "app_key",
           rest := [("condition", "Partly cloudy")] } : BPAlert) :=
  sendAlert_mutates_app_key "bearer" "app_key"
    ⟨some "location", some "warning", none, [("condition", "Partly cloudy")]⟩
    (⟨some "location", some "warning", some "app_key", [("condition", "Partly cloudy")]⟩,
     ⟨"https://api.bigpanda.io/data/v2/alerts", "bearer",
      ⟨some "location", some "warning", some "app_key", [("condition", "Partly cloudy")]⟩⟩)
    (by decide)

end WeatherBP
